import Mathlib

/-!
Verification development for the clinic appointment service
(`app/app.py` of the Projetos-BD repository).

The embedding below translates the Python source into Lean:

* Instants are modelled as natural numbers counting seconds.  A calendar
  date is its proleptic-Gregorian ordinal (`toordinal`, the count used by
  Python's `datetime.date.toordinal`, with day 1 = 0001-01-01), a
  time-of-day is its second count since midnight, and the instant of a
  `datetime` is `86400 * ordinal + second_of_day`.  The program only ever
  compares and steps datetimes at whole-second granularity (microseconds
  of `datetime.now()` are below the granularity of every comparison the
  claims are about), so this linearisation is faithful.
* `datetime.strptime` for the two format strings the program uses
  (`%Y-%m-%d` and `%H:%M:%S`) is modelled after CPython's `_strptime`
  regular expressions (`%Y` is exactly four digits, `%m`, `%d`, `%H`,
  `%M`, `%S` are one or two digits with the documented ranges) followed by
  the range checks of the `datetime` constructor (year at least 1, day at
  most the month length, second at most 59).  Inputs are taken to be ASCII
  (Python's `str.isdigit` and `\d` also accept non-ASCII decimal digits;
  no claim depends on such inputs).
* Database tables are lists of rows holding exactly the columns the code
  reads; SQL `COUNT(*) > 0` checks become `List.any`/`List.contains`,
  `DELETE`/`INSERT` become list filtering/appending, and values bound into
  `DATE`/`TIME` columns are the parsed day ordinal and second-of-day (SQL
  compares those columns by value).
-/

/-- Python `calendar`-style leap-year test, as used by `datetime`. -/
def isLeap (y : Nat) : Bool :=
  y % 4 == 0 && (y % 100 != 0 || y % 400 == 0)

/-- Length of month `m` (1..12) in year `y`, as validated by the
`datetime` constructor. -/
def daysInMonth (y m : Nat) : Nat :=
  if m = 2 then (if isLeap y then 29 else 28)
  else if m = 4 ∨ m = 6 ∨ m = 9 ∨ m = 11 then 30
  else 31

/-- Days in year `y` strictly before month `m`. -/
def daysBeforeMonth (y m : Nat) : Nat :=
  (List.range (m - 1)).foldl (fun acc i => acc + daysInMonth y (i + 1)) 0

/-- Python `datetime.date(y, m, d).toordinal()`: day number in the proleptic
Gregorian calendar, with 0001-01-01 mapped to 1. -/
def toordinal (y m d : Nat) : Nat :=
  365 * (y - 1) + (y - 1) / 4 - (y - 1) / 100 + (y - 1) / 400
    + daysBeforeMonth y m + d

/-- Python `date.weekday()` of the day with ordinal `d`: 0 = Monday .. 6 =
Sunday (0001-01-01, ordinal 1, was a Monday). -/
def weekday (d : Nat) : Nat := (d + 6) % 7

/-- Numeric value of a digit string (most significant first). -/
def digitosNat (cs : List Char) : Nat :=
  cs.foldl (fun acc c => 10 * acc + (c.toNat - 48)) 0

/-- All characters are ASCII decimal digits. -/
def todosDigitos (cs : List Char) : Bool :=
  cs.all Char.isDigit

/-- Model of `datetime.strptime(s, "%Y-%m-%d")`, returning the ordinal of the
parsed date.  `%Y` is exactly four digits; `%m` and `%d` are one or two
digits in the ranges 1..12 and 1..31; the `datetime` constructor then
requires year ≥ 1 and the day to fit the month. -/
def parseDate (s : String) : Option Nat :=
  match s.toList with
  | y1 :: y2 :: y3 :: y4 :: '-' :: resto =>
    if todosDigitos [y1, y2, y3, y4] then
      let y := digitosNat [y1, y2, y3, y4]
      match resto.span Char.isDigit with
      | (mcs, '-' :: dcs) =>
        if mcs.length = 1 ∨ mcs.length = 2 then
          if (dcs.length = 1 ∨ dcs.length = 2) ∧ todosDigitos dcs then
            let m := digitosNat mcs
            let d := digitosNat dcs
            if 1 ≤ y ∧ 1 ≤ m ∧ m ≤ 12 ∧ 1 ≤ d ∧ d ≤ daysInMonth y m then
              some (toordinal y m d)
            else none
          else none
        else none
      | _ => none
    else none
  | _ => none

/-- Model of `datetime.strptime(s, "%H:%M:%S")`, returning the second of the day.
`%H`, `%M`, `%S` are one or two digits; hour ≤ 23, minute ≤ 59, and the
`datetime` constructor rejects the leap seconds 60 and 61 that the
`strptime` regular expression itself would admit, so second ≤ 59. -/
def parseTime (s : String) : Option Nat :=
  match s.toList.span Char.isDigit with
  | (hcs, ':' :: resto) =>
    match resto.span Char.isDigit with
    | (mcs, ':' :: scs) =>
      if (hcs.length = 1 ∨ hcs.length = 2) ∧ (mcs.length = 1 ∨ mcs.length = 2)
          ∧ (scs.length = 1 ∨ scs.length = 2) ∧ todosDigitos scs then
        let h := digitosNat hcs
        let m := digitosNat mcs
        let s2 := digitosNat scs
        if h ≤ 23 ∧ m ≤ 59 ∧ s2 ≤ 59 then some (3600 * h + 60 * m + s2)
        else none
      else none
    | _ => none
  | _ => none

/-- Helper `verificar_formato_data` (app.py:52) for the two formats the program
passes to it. -/
def verificar_formato_data (data_str formato : String) : Bool :=
  if formato = "%Y-%m-%d" then (parseDate data_str).isSome
  else if formato = "%H:%M:%S" then (parseTime data_str).isSome
  else false

/-- Flask `request.args.get` yields `none` for an absent parameter; Python's
`not paciente` is true for both `None` and the empty string. -/
def campo_vazio : Option String → Bool
  | none => true
  | some s => s == ""

/-- The clinic operating-hours test of app.py:249-252: time-of-day in
[08:00:00, 13:00:00) or [14:00:00, 19:00:00), in seconds of the day. -/
def janela (t : Nat) : Bool :=
  (28800 ≤ t && t < 46800) || (50400 ≤ t && t < 68400)

/-- The validation chain of `marca_consulta` (app.py:222-253).  `now` is
the instant `datetime.now() + timedelta(hours=1)` of app.py:242.  Returns
the first error message, or `none` when the input is valid. -/
def valida_marca (paciente medico data hora : Option String) (now : Nat) :
    Option String :=
  if campo_vazio paciente then
    some "O campo paciente precisa de estar preenchido."
  else if ((paciente.getD "").length != 11) || !todosDigitos (paciente.getD "").toList then
    some "Formato inválido para o campo paciente."
  else if campo_vazio medico then
    some "O campo medico precisa de estar preenchido."
  else if ((medico.getD "").length != 9) || !todosDigitos (medico.getD "").toList then
    some "Formato inválido para o campo medico."
  else if campo_vazio data then
    some "O campo data precisa de estar preenchido."
  else if !verificar_formato_data (data.getD "") "%Y-%m-%d" then
    some "Formato inválido para o campo data. Formato esperado: YYYY-MM-DD"
  else if campo_vazio hora then
    some "O campo hora precisa de estar preenchido."
  else if !verificar_formato_data (hora.getD "") "%H:%M:%S" then
    some "Formato inválido para o campo hora. Formato esperado: HH:MM:SS"
  else if 86400 * ((parseDate (data.getD "")).getD 0) + (parseTime (hora.getD "")).getD 0
      < now then
    some ("O horário inserido não pode ser no passado: "
      ++ hora.getD "" ++ " " ++ data.getD "")
  else if !janela ((parseTime (hora.getD "")).getD 0) then
    some "O horário inserido deve estar no horário 8-13h e 14-19h."
  else none

/-- The validation chain of `cancela_consulta` (app.py:401-432), a
line-by-line copy of the one in `marca_consulta`. -/
def valida_cancela (paciente medico data hora : Option String) (now : Nat) :
    Option String :=
  if campo_vazio paciente then
    some "O campo paciente precisa de estar preenchido."
  else if ((paciente.getD "").length != 11) || !todosDigitos (paciente.getD "").toList then
    some "Formato inválido para o campo paciente."
  else if campo_vazio medico then
    some "O campo medico precisa de estar preenchido."
  else if ((medico.getD "").length != 9) || !todosDigitos (medico.getD "").toList then
    some "Formato inválido para o campo medico."
  else if campo_vazio data then
    some "O campo data precisa de estar preenchido."
  else if !verificar_formato_data (data.getD "") "%Y-%m-%d" then
    some "Formato inválido para o campo data. Formato esperado: YYYY-MM-DD"
  else if campo_vazio hora then
    some "O campo hora precisa de estar preenchido."
  else if !verificar_formato_data (hora.getD "") "%H:%M:%S" then
    some "Formato inválido para o campo hora. Formato esperado: HH:MM:SS"
  else if 86400 * ((parseDate (data.getD "")).getD 0) + (parseTime (hora.getD "")).getD 0
      < now then
    some ("O horário inserido não pode ser no passado: "
      ++ hora.getD "" ++ " " ++ data.getD "")
  else if !janela ((parseTime (hora.getD "")).getD 0) then
    some "O horário inserido deve estar no horário 8-13h e 14-19h."
  else none

/-- Recursion core of `gerar_horarios_disponiveis` (app.py:42-49).  The
Python `while inicio < fim` loop advances `inicio` by
`intervalo_minutos` minutes each iteration, so when the interval is
positive (the program only ever passes 30) it runs at most `fim - inicio`
iterations; that quantity is used as a structural counter and the loop
guard `inicio < fim` is still what stops the recursion.  13:00:00 and
13:30:00 are seconds 46800 and 48600 of the day. -/
def gerar_horarios_go (fim intervalo_minutos : Nat) : Nat → Nat → List Nat
  | _, 0 => []
  | inicio, conta + 1 =>
    if inicio < fim then
      if inicio % 86400 = 46800 ∨ inicio % 86400 = 48600 then
        gerar_horarios_go fim intervalo_minutos (inicio + 60 * intervalo_minutos) conta
      else
        inicio :: gerar_horarios_go fim intervalo_minutos (inicio + 60 * intervalo_minutos) conta
    else []

/-- Function `gerar_horarios_disponiveis(inicio, fim, intervalo_minutos)`
(app.py:42-49) over instants in seconds. -/
def gerar_horarios_disponiveis (inicio fim intervalo_minutos : Nat) : List Nat :=
  gerar_horarios_go fim intervalo_minutos inicio (fim - inicio)

lemma sanidade_1 : parseDate "2024-06-03" = some 739040 := by decide
lemma sanidade_2 : weekday 739040 = 0 := by decide
lemma sanidade_3 : parseTime "25:00:00" = none := by decide
lemma sanidade_4 : parseTime "12:30:00" = some 45000 := by decide
lemma sanidade_5 : parseTime "13:15:00" = some 47700 := by decide
lemma sanidade_6 : parseDate "2023-02-29" = none := by decide
lemma sanidade_7 : parseDate "2024-02-29" = some (toordinal 2024 2 29) := by decide
lemma sanidade_8 : parseDate "0000-01-01" = none := by decide
lemma sanidade_9 : parseDate "2024-6-3" = some 739040 := by decide
lemma sanidade_10 : parseDate "2024-13-01" = none := by decide
lemma sanidade_11 : gerar_horarios_disponiveis 46800 50400 30 = [] := by decide
lemma sanidade_12 : gerar_horarios_disponiveis 46800 50401 30 = [50400] := by decide
lemma sanidade_13 : gerar_horarios_disponiveis 5 5 30 = [] := by decide
lemma sanidade_14 :
    valida_marca (some "1234567890") none none none 0
      = some "Formato inválido para o campo paciente." := by decide

/-! ## Database model

One row type per table, holding the columns the code reads. -/

/-- A row of `paciente`: social-security number and the patient's
(home) doctor's fiscal number. -/
structure Paciente where
  ssn : String
  nif : String
deriving DecidableEq

/-- A row of `trabalha`: doctor `nif` works at clinic `nome` on weekday
`dia_da_semana` (0 = Monday .. 6 = Sunday). -/
structure Trabalha where
  nif : String
  nome : String
  dia_da_semana : Nat
deriving DecidableEq

/-- A row of `consulta`: patient, doctor, clinic, date (ordinal) and
time (second of day).  The surrogate `id` column is never read by the
code under scrutiny and is omitted. -/
structure Consulta where
  ssn : String
  nif : String
  nome : String
  data : Nat
  hora : Nat
deriving DecidableEq

/-- The relational state: clinics are kept as their names and doctors as
their fiscal numbers (the only columns these checks read). -/
structure DB where
  clinicas : List String
  pacientes : List Paciente
  medicos : List String
  trabalha : List Trabalha
  consultas : List Consulta
deriving DecidableEq

/-- Query `SELECT COUNT(*) FROM clinica WHERE nome = clinica > 0`. -/
def clinica_existe (db : DB) (clinica : String) : Bool :=
  db.clinicas.contains clinica

/-- Query `SELECT COUNT(*) FROM paciente WHERE ssn = ssn > 0`. -/
def paciente_existe (db : DB) (ssn : String) : Bool :=
  db.pacientes.any (fun p => p.ssn == ssn)

/-- Query `SELECT COUNT(*) FROM medico WHERE nif = nif > 0`. -/
def medico_existe (db : DB) (nif : String) : Bool :=
  db.medicos.contains nif

/-- Query `SELECT COUNT(*) FROM trabalha WHERE nif AND nome AND dia_da_semana > 0`
(app.py:300-312). -/
def medico_na_clinica (db : DB) (medico clinica : String) (dia : Nat) : Bool :=
  db.trabalha.any (fun t => t.nif == medico && t.nome == clinica && t.dia_da_semana == dia)

/-- Query `SELECT COUNT(*) FROM consulta WHERE nif AND data AND hora > 0`
(app.py:316-328). -/
def medico_tem_consulta (db : DB) (medico : String) (data hora : Nat) : Bool :=
  db.consultas.any (fun c => c.nif == medico && c.data == data && c.hora == hora)

/-- Query `SELECT COUNT(*) FROM consulta WHERE ssn AND data AND hora > 0`
(app.py:332-344). -/
def paciente_tem_consulta (db : DB) (paciente : String) (data hora : Nat) : Bool :=
  db.consultas.any (fun c => c.ssn == paciente && c.data == data && c.hora == hora)

/-- Query `SELECT nif FROM paciente WHERE ssn = ssn` followed by
`fetchone().nif` (app.py:348-356): the doctor of the first matching row. -/
def paciente_nif (db : DB) (ssn : String) : Option String :=
  (db.pacientes.find? (fun p => p.ssn == ssn)).map (fun p => p.nif)

/-- An HTTP response: status code and the `message` field of the JSON
payload. -/
structure Resp where
  code : Nat
  message : String
deriving DecidableEq

/-- List `lista_dias_da_semana` (app.py:39). -/
def lista_dias_da_semana : List String :=
  ["segunda-feira", "terça-feira", "quarta-feira", "quinta-feira",
   "sexta-feira", "sábado", "domingo"]

/-- One backing-store access inside the transactional section.  The
store may raise at any call; a fault `some (k, e)` makes the `k`-th
call (0-based, in program order) raise an exception with message `e`. -/
def db_call (falha : Option (Nat × String)) (k : Nat) : Except String Unit :=
  match falha with
  | some (i, e) => if i = k then Except.error e else Except.ok ()
  | none => Except.ok ()

/-- The body of the `with conn.transaction()` block of `marca_consulta`
(app.py:262-386), reached only after validation passed.  `data` and
`hora` are the raw request strings; the values bound into `DATE`/`TIME`
columns and the weekday of app.py:310 are obtained by parsing them, as
`strptime`/Postgres do.  Store accesses are numbered 0..7 in program
order; an `Except.error` models an exception escaping the block. -/
def marca_txn_body (db : DB) (clinica paciente medico data hora : String)
    (falha : Option (Nat × String)) : Except String (Resp × DB) :=
  let dd := (parseDate data).getD 0
  let tt := (parseTime hora).getD 0
  match db_call falha 0 with
  | Except.error e => Except.error e
  | Except.ok _ =>
  if clinica_existe db clinica then
    match db_call falha 1 with
    | Except.error e => Except.error e
    | Except.ok _ =>
    if paciente_existe db paciente then
      match db_call falha 2 with
      | Except.error e => Except.error e
      | Except.ok _ =>
      if medico_existe db medico then
        match db_call falha 3 with
        | Except.error e => Except.error e
        | Except.ok _ =>
        if medico_na_clinica db medico clinica (weekday dd) then
          match db_call falha 4 with
          | Except.error e => Except.error e
          | Except.ok _ =>
          if !medico_tem_consulta db medico dd tt then
            match db_call falha 5 with
            | Except.error e => Except.error e
            | Except.ok _ =>
            if !paciente_tem_consulta db paciente dd tt then
              match db_call falha 6 with
              | Except.error e => Except.error e
              | Except.ok _ =>
              match paciente_nif db paciente with
              | some pnif =>
                if pnif != medico then
                  match db_call falha 7 with
                  | Except.error e => Except.error e
                  | Except.ok _ =>
                  Except.ok
                    (⟨200, "Marcou consulta: paciente: " ++ paciente ++ "; medico: "
                        ++ medico ++ "; clínica: " ++ clinica ++ "; hora: " ++ hora
                        ++ "; data: " ++ data ++ "."⟩,
                     { db with consultas :=
                        db.consultas ++ [⟨paciente, medico, clinica, dd, tt⟩] })
                else
                  Except.ok (⟨400, "O médico não se pode consultar a si próprio."⟩, db)
              | none =>
                -- `fetchone()` returning no row would raise; unreachable because
                -- `paciente_existe` was just checked inside the same transaction.
                Except.error "fetchone devolveu None"
            else
              Except.ok
                (⟨400, "O paciente já tem uma consulta no horário especificado: "
                    ++ hora ++ " " ++ data⟩, db)
          else
            Except.ok
              (⟨400, "O médico já tem uma consulta no horário especificado: "
                  ++ hora ++ " " ++ data⟩, db)
        else
          Except.ok
            (⟨400, "O médico não dá consultas na clínica no dia da semana: "
                ++ lista_dias_da_semana.getD (weekday dd) ""⟩, db)
      else
        Except.ok (⟨400, "Médico não existente no sistema: " ++ medico⟩, db)
    else
      Except.ok (⟨400, "Paciente não existente no sistema: " ++ paciente⟩, db)
  else
    Except.ok (⟨404, "Clínica não existente no sistema: " ++ clinica⟩, db)

/-- Predicate of `DELETE FROM consulta WHERE ssn AND nif AND nome AND data AND hora`
row predicate (app.py:478-492). -/
def consulta_corresponde (paciente medico clinica : String) (dd tt : Nat)
    (c : Consulta) : Bool :=
  c.ssn == paciente && c.nif == medico && c.nome == clinica
    && c.data == dd && c.hora == tt

/-- The body of the `with conn.transaction()` block of `cancela_consulta`
(app.py:440-504).  Store accesses are numbered 0..3 in program order
(3 is the `DELETE`); `cur.rowcount` is the number of rows removed. -/
def cancela_txn_body (db : DB) (clinica paciente medico data hora : String)
    (falha : Option (Nat × String)) : Except String (Resp × DB) :=
  let dd := (parseDate data).getD 0
  let tt := (parseTime hora).getD 0
  match db_call falha 0 with
  | Except.error e => Except.error e
  | Except.ok _ =>
  if clinica_existe db clinica then
    match db_call falha 1 with
    | Except.error e => Except.error e
    | Except.ok _ =>
    if paciente_existe db paciente then
      match db_call falha 2 with
      | Except.error e => Except.error e
      | Except.ok _ =>
      if medico_existe db medico then
        match db_call falha 3 with
        | Except.error e => Except.error e
        | Except.ok _ =>
        let restantes :=
          db.consultas.filter (fun c => !consulta_corresponde paciente medico clinica dd tt c)
        if db.consultas.length - restantes.length > 0 then
          Except.ok
            (⟨200, "Cancelou consulta: paciente: " ++ paciente ++ "; medico: "
                ++ medico ++ "; clínica: " ++ clinica ++ "; hora: " ++ hora
                ++ "; data " ++ data ++ "."⟩,
             { db with consultas := restantes })
        else
          Except.ok
            (⟨400, "Não foi encontrada nenhuma consulta para os parâmetros especificados."⟩,
             { db with consultas := restantes })
      else
        Except.ok (⟨400, "Médico não existente no sistema: " ++ medico⟩, db)
    else
      Except.ok (⟨400, "Paciente não existente no sistema: " ++ paciente⟩, db)
  else
    Except.ok (⟨404, "Clínica não existente no sistema: " ++ clinica⟩, db)

/-- Wrapper `try: with conn.transaction(): ... except Exception as e: return 500`
(app.py:261-262 with 387-388, and 439-440 with 505-506).  Per psycopg's
contract, an exception leaving the `transaction()` block rolls the
transaction back, so the store keeps its entry state; the handler turns
the exception into a 500 response carrying `str(e)`. -/
def run_transaction (db : DB) (corpo : Except String (Resp × DB)) : Resp × DB :=
  match corpo with
  | Except.ok rdb => rdb
  | Except.error e => (⟨500, e⟩, db)

/-- The post-validation part of `marca_consulta` (app.py:259-389). -/
def marca_consulta_txn (db : DB) (clinica paciente medico data hora : String)
    (falha : Option (Nat × String)) : Resp × DB :=
  run_transaction db (marca_txn_body db clinica paciente medico data hora falha)

/-- The post-validation part of `cancela_consulta` (app.py:437-507). -/
def cancela_consulta_txn (db : DB) (clinica paciente medico data hora : String)
    (falha : Option (Nat × String)) : Resp × DB :=
  run_transaction db (cancela_txn_body db clinica paciente medico data hora falha)

/-! ## Slot-generator lemmas -/

/-- Every generated instant is at least the start instant. -/
lemma gerar_go_lb (fim : Nat) :
    ∀ conta inicio t, t ∈ gerar_horarios_go fim 30 inicio conta → inicio ≤ t := by
  intro conta
  induction conta with
  | zero => intro inicio t h; simp [gerar_horarios_go] at h
  | succ n ih =>
    intro inicio t h
    simp only [gerar_horarios_go] at h
    by_cases hlt : inicio < fim
    · rw [if_pos hlt] at h
      by_cases hl : inicio % 86400 = 46800 ∨ inicio % 86400 = 48600
      · rw [if_pos hl] at h
        have := ih _ _ h
        omega
      · rw [if_neg hl] at h
        rcases List.mem_cons.mp h with rfl | h
        · exact le_refl _
        · have := ih _ _ h
          omega
    · rw [if_neg hlt] at h
      simp at h

/-- Characterisation of the instants produced by the generator core (for
the 30-minute interval the program uses), assuming the counter covers the
remaining span. -/
lemma gerar_go_mem (fim : Nat) :
    ∀ conta inicio, fim - inicio ≤ conta → ∀ t,
      (t ∈ gerar_horarios_go fim 30 inicio conta ↔
        (inicio ≤ t ∧ t < fim ∧ (∃ k, t = inicio + 1800 * k)
          ∧ ¬(t % 86400 = 46800 ∨ t % 86400 = 48600))) := by
  intro conta
  induction conta with
  | zero =>
    intro inicio hb t
    simp only [gerar_horarios_go, List.not_mem_nil, false_iff]
    rintro ⟨h1, h2, -, -⟩
    omega
  | succ n ih =>
    intro inicio hb t
    simp only [gerar_horarios_go]
    by_cases hlt : inicio < fim
    · rw [if_pos hlt]
      have hb2 : fim - (inicio + 60 * 30) ≤ n := by omega
      by_cases hl : inicio % 86400 = 46800 ∨ inicio % 86400 = 48600
      · rw [if_pos hl, ih _ hb2 t]
        constructor
        · rintro ⟨h1, h2, ⟨k, rfl⟩, h4⟩
          exact ⟨by omega, h2, ⟨k + 1, by ring⟩, h4⟩
        · rintro ⟨h1, h2, ⟨k, rfl⟩, h4⟩
          match k with
          | 0 =>
            exfalso
            apply h4
            simpa using hl
          | k + 1 =>
            exact ⟨by omega, h2, ⟨k, by ring⟩, h4⟩
      · rw [if_neg hl, List.mem_cons, ih _ hb2 t]
        constructor
        · rintro (rfl | ⟨h1, h2, ⟨k, rfl⟩, h4⟩)
          · exact ⟨le_refl _, hlt, ⟨0, by ring⟩, hl⟩
          · exact ⟨by omega, h2, ⟨k + 1, by ring⟩, h4⟩
        · rintro ⟨h1, h2, ⟨k, rfl⟩, h4⟩
          match k with
          | 0 => exact Or.inl (by ring)
          | k + 1 => exact Or.inr ⟨by omega, h2, ⟨k, by ring⟩, h4⟩
    · rw [if_neg hlt]
      simp only [List.not_mem_nil, false_iff]
      rintro ⟨h1, h2, -, -⟩
      omega

/-- The generated instants are strictly increasing. -/
lemma gerar_go_sorted (fim : Nat) :
    ∀ conta inicio, List.Sorted (· < ·) (gerar_horarios_go fim 30 inicio conta) := by
  intro conta
  induction conta with
  | zero => intro inicio; simp [gerar_horarios_go]
  | succ n ih =>
    intro inicio
    simp only [gerar_horarios_go]
    by_cases hlt : inicio < fim
    · rw [if_pos hlt]
      by_cases hl : inicio % 86400 = 46800 ∨ inicio % 86400 = 48600
      · rw [if_pos hl]; exact ih _
      · rw [if_neg hl]
        refine List.sorted_cons.mpr ⟨?_, ih _⟩
        intro b hb
        have := gerar_go_lb fim n (inicio + 60 * 30) b hb
        omega
    · rw [if_neg hlt]; exact List.sorted_nil

/-- Membership characterisation of `gerar_horarios_disponiveis` at the
program's 30-minute interval. -/
lemma gerar_mem (inicio fim t : Nat) :
    t ∈ gerar_horarios_disponiveis inicio fim 30 ↔
      (inicio ≤ t ∧ t < fim ∧ (∃ k, t = inicio + 1800 * k)
        ∧ ¬(t % 86400 = 46800 ∨ t % 86400 = 48600)) :=
  gerar_go_mem fim (fim - inicio) inicio (le_refl _) t

/-- Sortedness of `gerar_horarios_disponiveis`. -/
lemma gerar_sorted (inicio fim : Nat) :
    List.Sorted (· < ·) (gerar_horarios_disponiveis inicio fim 30) :=
  gerar_go_sorted fim (fim - inicio) inicio

/-- C5: for every start and end instant and the fixed 30-minute interval,
the slot generator yields exactly the instants `t` with
`start ≤ t < end`, `t = start + k * 1800` seconds for some natural `k`,
whose time-of-day is neither 13:00:00 (second 46800) nor 13:30:00
(second 48600); the sequence is strictly increasing, and it is empty
whenever `start ≥ end`. -/
theorem claim_C5_gerador_horarios :
    ∀ inicio fim t,
      (t ∈ gerar_horarios_disponiveis inicio fim 30 ↔
        (inicio ≤ t ∧ t < fim ∧ (∃ k, t = inicio + 1800 * k)
          ∧ ¬(t % 86400 = 46800 ∨ t % 86400 = 48600)))
      ∧ List.Sorted (· < ·) (gerar_horarios_disponiveis inicio fim 30)
      ∧ (fim ≤ inicio → gerar_horarios_disponiveis inicio fim 30 = []) := by
  intro inicio fim t
  refine ⟨gerar_mem inicio fim t, gerar_sorted inicio fim, ?_⟩
  intro h
  unfold gerar_horarios_disponiveis
  rw [Nat.sub_eq_zero_of_le h]
  rfl

/-- Witness for C5 at a concrete degenerate input. -/
theorem claim_C5_witness :
    5 ≤ 5 ∧ gerar_horarios_disponiveis 5 5 30 = [] :=
  ⟨by decide, (claim_C5_gerador_horarios 5 5 0).2.2 (by decide)⟩

/-! ## Availability resolver (app.py:158-203) -/

/-- Query `SELECT dia_da_semana FROM trabalha WHERE nif AND nome`
(app.py:160-168): weekdays the doctor works at the clinic. -/
def dias_medico (db : DB) (nif clinica : String) : List Nat :=
  (db.trabalha.filter (fun t => t.nif == nif && t.nome == clinica)).map
    (fun t => t.dia_da_semana)

/-- Query `SELECT data, hora FROM consulta WHERE nif AND (data > now OR (data =
now AND hora > now))` (app.py:171-180): the doctor's strictly future
appointments.  The `ORDER BY data, hora` only fixes the order of a list
this code consults purely through `all(...)`, so it is not modelled. -/
def consultas_futuras (db : DB) (nif : String) (now : Nat) : List Consulta :=
  db.consultas.filter (fun c =>
    c.nif == nif && (decide (now / 86400 < c.data)
      || (c.data == now / 86400 && decide (now % 86400 < c.hora))))

/-- The availability test of app.py:195: the candidate is strictly after
`now` and matches no fetched appointment's combined instant. -/
def horario_livre (now : Nat) (consultas : List Consulta) (horario : Nat) : Bool :=
  decide (now < horario)
    && consultas.all (fun c => horario != 86400 * c.data + c.hora)

/-- The inner `for horario in horarios_possiveis` loop of app.py:192-196,
with its `len >= 3` break. -/
def colhe_horarios (now : Nat) (consultas : List Consulta) :
    List Nat → List Nat → List Nat
  | acc, [] => acc
  | acc, horario :: resto =>
    if 3 ≤ acc.length then acc
    else if horario_livre now consultas horario then
      colhe_horarios now consultas (acc ++ [horario]) resto
    else colhe_horarios now consultas acc resto

/-- The per-day body of the `while` loop (app.py:185-196): on a working
weekday, collect from the clinic-hour slots 08:00-19:00 of that date. -/
def processa_dia (dias : List Nat) (now : Nat) (consultas : List Consulta)
    (acc : List Nat) (data_atual : Nat) : List Nat :=
  if dias.contains (weekday data_atual) then
    colhe_horarios now consultas acc
      (gerar_horarios_disponiveis (86400 * data_atual + 28800)
        (86400 * data_atual + 68400) 30)
  else acc

/-- The `while len(horarios_disponiveis) < 3` day scan (app.py:183-198).
The Python loop has no iteration bound; `fuel` counts loop iterations and
`none` means the loop is still running after `fuel` of them, so a result
that is `none` for every `fuel` is a loop that never terminates. -/
def scan_consultas (dias : List Nat) (now : Nat) (consultas : List Consulta) :
    Nat → List Nat → Nat → Option (List Nat)
  | _, _, 0 => none
  | data_atual, acc, fuel + 1 =>
    if acc.length < 3 then
      scan_consultas dias now consultas (data_atual + 1)
        (processa_dia dias now consultas acc data_atual) fuel
    else some acc

/-- Per-doctor slot resolution of `lista_medicos_clinica_especialidade`
(app.py:158-198): working weekdays and future appointments are read once,
then days are scanned starting from `now.date()`.  `now` is already the
`datetime.now() + timedelta(hours=1)` of app.py:123. -/
def horarios_disponiveis_medico (db : DB) (clinica nif : String)
    (now fuel : Nat) : Option (List Nat) :=
  scan_consultas (dias_medico db nif clinica) now (consultas_futuras db nif now)
    (now / 86400) [] fuel

/-! ## Resolver lemmas -/

/-- Invariant transfer for the inner collection loop. -/
lemma colhe_spec (now : Nat) (cs : List Consulta) :
    ∀ cand acc, acc.length ≤ 3 →
      List.Sorted (· < ·) acc → List.Sorted (· < ·) cand →
      (∀ a ∈ acc, ∀ x ∈ cand, a < x) →
      (colhe_horarios now cs acc cand).length ≤ 3 ∧
      List.Sorted (· < ·) (colhe_horarios now cs acc cand) ∧
      (∀ y ∈ colhe_horarios now cs acc cand,
        y ∈ acc ∨ (y ∈ cand ∧ horario_livre now cs y = true)) := by
  intro cand
  induction cand with
  | nil =>
    intro acc hla hsa _ _
    exact ⟨hla, hsa, fun y hy => Or.inl hy⟩
  | cons x resto ih =>
    intro acc hla hsa hsc hcruz
    simp only [colhe_horarios]
    by_cases h3 : 3 ≤ acc.length
    · rw [if_pos h3]
      exact ⟨hla, hsa, fun y hy => Or.inl hy⟩
    · rw [if_neg h3]
      have hx_resto : ∀ y ∈ resto, x < y := (List.sorted_cons.mp hsc).1
      have hs_resto : List.Sorted (· < ·) resto := (List.sorted_cons.mp hsc).2
      by_cases hliv : horario_livre now cs x = true
      · rw [if_pos hliv]
        have hacc' : (acc ++ [x]).length ≤ 3 := by
          simp only [List.length_append, List.length_singleton]
          omega
        have hsa' : List.Sorted (· < ·) (acc ++ [x]) := by
          refine List.pairwise_append.mpr ⟨hsa, List.sorted_singleton x, ?_⟩
          intro a ha b hb
          rw [List.mem_singleton] at hb
          rw [hb]
          exact hcruz a ha x (List.mem_cons_self x resto)
        have hcruz' : ∀ a ∈ acc ++ [x], ∀ y ∈ resto, a < y := by
          intro a ha y hy
          rcases List.mem_append.mp ha with ha | ha
          · exact hcruz a ha y (List.mem_cons_of_mem x hy)
          · rw [List.mem_singleton] at ha
            rw [ha]
            exact hx_resto y hy
        obtain ⟨hl1, hl2, hl3⟩ := ih (acc ++ [x]) hacc' hsa' hs_resto hcruz'
        refine ⟨hl1, hl2, ?_⟩
        intro y hy
        rcases hl3 y hy with hy2 | ⟨hy2, hy3⟩
        · rcases List.mem_append.mp hy2 with hy3 | hy3
          · exact Or.inl hy3
          · rw [List.mem_singleton] at hy3
            subst hy3
            exact Or.inr ⟨List.mem_cons_self y resto, hliv⟩
        · exact Or.inr ⟨List.mem_cons_of_mem x hy2, hy3⟩
      · rw [if_neg hliv]
        have hcruz' : ∀ a ∈ acc, ∀ y ∈ resto, a < y := fun a ha y hy =>
          hcruz a ha y (List.mem_cons_of_mem x hy)
        obtain ⟨hl1, hl2, hl3⟩ := ih acc hla hsa hs_resto hcruz'
        refine ⟨hl1, hl2, ?_⟩
        intro y hy
        rcases hl3 y hy with hy2 | ⟨hy2, hy3⟩
        · exact Or.inl hy2
        · exact Or.inr ⟨List.mem_cons_of_mem x hy2, hy3⟩

/-- Invariant transfer for one scanned day. -/
lemma processa_dia_spec (dias : List Nat) (now : Nat) (cs : List Consulta)
    (acc : List Nat) (d : Nat)
    (hla : acc.length ≤ 3) (hsa : List.Sorted (· < ·) acc)
    (hub : ∀ a ∈ acc, a < 86400 * d)
    (hprop : ∀ a ∈ acc, dias.contains (weekday (a / 86400)) = true
      ∧ horario_livre now cs a = true) :
    (processa_dia dias now cs acc d).length ≤ 3 ∧
    List.Sorted (· < ·) (processa_dia dias now cs acc d) ∧
    (∀ a ∈ processa_dia dias now cs acc d, a < 86400 * (d + 1)) ∧
    (∀ a ∈ processa_dia dias now cs acc d,
      dias.contains (weekday (a / 86400)) = true
        ∧ horario_livre now cs a = true) := by
  unfold processa_dia
  by_cases hd : dias.contains (weekday d) = true
  · rw [if_pos hd]
    have hcand_mem : ∀ x ∈ gerar_horarios_disponiveis (86400 * d + 28800)
        (86400 * d + 68400) 30, 86400 * d + 28800 ≤ x ∧ x < 86400 * d + 68400 := by
      intro x hx
      have := (gerar_mem (86400 * d + 28800) (86400 * d + 68400) x).mp hx
      exact ⟨this.1, this.2.1⟩
    have hcruz : ∀ a ∈ acc,
        ∀ x ∈ gerar_horarios_disponiveis (86400 * d + 28800) (86400 * d + 68400) 30,
        a < x := by
      intro a ha x hx
      have h1 := hub a ha
      have h2 := (hcand_mem x hx).1
      omega
    obtain ⟨hl1, hl2, hl3⟩ := colhe_spec now cs
      (gerar_horarios_disponiveis (86400 * d + 28800) (86400 * d + 68400) 30)
      acc hla hsa (gerar_sorted _ _) hcruz
    refine ⟨hl1, hl2, ?_, ?_⟩
    · intro a ha
      rcases hl3 a ha with ha2 | ⟨ha2, _⟩
      · have := hub a ha2
        omega
      · have := (hcand_mem a ha2).2
        omega
    · intro a ha
      rcases hl3 a ha with ha2 | ⟨ha2, hliv⟩
      · exact hprop a ha2
      · have hrange := hcand_mem a ha2
        have hdiv : a / 86400 = d := by omega
        rw [hdiv]
        exact ⟨hd, hliv⟩
  · rw [if_neg hd]
    refine ⟨hla, hsa, ?_, hprop⟩
    intro a ha
    have := hub a ha
    omega

/-- What a completed day scan guarantees about its result. -/
lemma scan_spec (dias : List Nat) (now : Nat) (cs : List Consulta) :
    ∀ fuel d acc hs,
      acc.length ≤ 3 → List.Sorted (· < ·) acc →
      (∀ a ∈ acc, a < 86400 * d) →
      (∀ a ∈ acc, dias.contains (weekday (a / 86400)) = true
        ∧ horario_livre now cs a = true) →
      scan_consultas dias now cs d acc fuel = some hs →
      hs.length = 3 ∧ List.Sorted (· < ·) hs ∧
      (∀ a ∈ hs, dias.contains (weekday (a / 86400)) = true
        ∧ horario_livre now cs a = true) := by
  intro fuel
  induction fuel with
  | zero =>
    intro d acc hs _ _ _ _ h
    simp [scan_consultas] at h
  | succ n ih =>
    intro d acc hs hla hsa hub hprop h
    simp only [scan_consultas] at h
    by_cases h3 : acc.length < 3
    · rw [if_pos h3] at h
      obtain ⟨hp1, hp2, hp3, hp4⟩ := processa_dia_spec dias now cs acc d hla hsa hub hprop
      exact ih (d + 1) (processa_dia dias now cs acc d) hs hp1 hp2 hp3 hp4 h
    · rw [if_neg h3] at h
      obtain rfl : acc = hs := by
        simpa using h
      exact ⟨by omega, hsa, hprop⟩

/-- A day scan over an empty working-weekday list never adds a slot, so
it yields no result for any iteration count. -/
lemma scan_dias_vazio (now : Nat) (cs : List Consulta) :
    ∀ fuel d, scan_consultas [] now cs d [] fuel = none := by
  intro fuel
  induction fuel with
  | zero => intro d; rfl
  | succ n ih =>
    intro d
    simp only [scan_consultas]
    rw [if_pos (by simp)]
    have hp : processa_dia [] now cs [] d = [] := by
      unfold processa_dia
      rw [if_neg (by simp)]
    rw [hp]
    exact ih (d + 1)

/-- C2 (code bug exhibit): for a doctor with no working weekday at the
queried clinic (here: an empty `trabalha` table, so `dias_medico` is
`[]`), the day-by-day scan is still running after every finite number of
loop iterations — the `while` loop of app.py:184 never terminates, in
contradiction with the claimed bounded-scan contract. -/
theorem claim_C2_scan_dias_vazio_nao_termina :
    ∀ (clinicas : List String) (pacientes : List Paciente)
      (medicos : List String) (consultas : List Consulta)
      (clinica nif : String) (now fuel : Nat),
      horarios_disponiveis_medico
        ⟨clinicas, pacientes, medicos, [], consultas⟩ clinica nif now fuel = none := by
  intro clinicas pacientes medicos consultas clinica nif now fuel
  unfold horarios_disponiveis_medico
  have hd : dias_medico ⟨clinicas, pacientes, medicos, [], consultas⟩ nif clinica = [] := rfl
  rw [hd]
  exact scan_dias_vazio now _ fuel (now / 86400)

/-- C3: whatever slot list the per-doctor scan returns is at most 3 long
(in fact exactly 3), strictly increasing, and every slot is strictly
after `now` (which is already wall clock + 1h, app.py:123), falls on a
weekday the doctor works at the queried clinic, and differs from the
combined instant of every `consulta` row of that doctor.  The only
side condition is that `hora` column values are genuine times of day
(below 86400 seconds). -/
theorem claim_C3_propriedades_horarios (db : DB) (clinica nif : String)
    (now fuel : Nat) (hs : List Nat)
    (hhora : ∀ c ∈ db.consultas, c.hora < 86400)
    (hres : horarios_disponiveis_medico db clinica nif now fuel = some hs) :
    hs.length ≤ 3 ∧ List.Sorted (· < ·) hs ∧
    ∀ t ∈ hs, now < t ∧
      (dias_medico db nif clinica).contains (weekday (t / 86400)) = true ∧
      ∀ c ∈ db.consultas, c.nif = nif → t ≠ 86400 * c.data + c.hora := by
  unfold horarios_disponiveis_medico at hres
  obtain ⟨hl, hsort, hmem⟩ := scan_spec (dias_medico db nif clinica) now
    (consultas_futuras db nif now) fuel (now / 86400) [] hs
    (by simp) (List.sorted_nil) (by simp) (by simp) hres
  refine ⟨by omega, hsort, ?_⟩
  intro t ht
  obtain ⟨hdia, hliv⟩ := hmem t ht
  have hliv2 := hliv
  unfold horario_livre at hliv2
  rw [Bool.and_eq_true] at hliv2
  obtain ⟨hnow, hall⟩ := hliv2
  rw [decide_eq_true_eq] at hnow
  refine ⟨hnow, hdia, ?_⟩
  intro c hc hcnif heq
  have hfut : c ∈ consultas_futuras db nif now := by
    rw [consultas_futuras, List.mem_filter]
    refine ⟨hc, ?_⟩
    have hhc := hhora c hc
    have hcond : now / 86400 < c.data ∨ (c.data = now / 86400 ∧ now % 86400 < c.hora) := by
      omega
    rw [Bool.and_eq_true, beq_iff_eq]
    refine ⟨hcnif, ?_⟩
    rw [Bool.or_eq_true, Bool.and_eq_true, beq_iff_eq, decide_eq_true_eq, decide_eq_true_eq]
    omega
  rw [List.all_eq_true] at hall
  have := hall c hfut
  rw [bne_iff_ne] at this
  exact this heq

/-- C10: whenever the day scan terminates, the returned slot list has
length exactly 3 — the loop's only exit condition is having collected
three slots, so the shorter lists the spec's "up to 3" would allow are
never produced. -/
theorem claim_C10_exatamente_tres (db : DB) (clinica nif : String)
    (now fuel : Nat) (hs : List Nat)
    (hres : horarios_disponiveis_medico db clinica nif now fuel = some hs) :
    hs.length = 3 := by
  unfold horarios_disponiveis_medico at hres
  exact (scan_spec (dias_medico db nif clinica) now (consultas_futuras db nif now)
    fuel (now / 86400) [] hs (by simp) (List.sorted_nil) (by simp) (by simp) hres).1

/-- A one-clinic, one-doctor store used to instantiate the resolver
claims: the doctor works at clinic "C" on Mondays and has no
appointments.  Ordinal 739040 is 2024-06-03, a Monday. -/
def db_exemplo : DB :=
  ⟨["C"], [⟨"12345678901", "987654321"⟩], ["123456789"],
    [⟨"123456789", "C", 0⟩], []⟩

/-- Witness for C3: at `db_exemplo`, from midnight of Monday 2024-06-03
the scan finds 08:00, 08:30 and 09:00 of that day within two loop
iterations. -/
theorem claim_C3_witness :
    (∀ c ∈ db_exemplo.consultas, c.hora < 86400) ∧
    (horarios_disponiveis_medico db_exemplo "C" "123456789" (86400 * 739040) 2
      = some [86400 * 739040 + 28800, 86400 * 739040 + 30600, 86400 * 739040 + 32400]) ∧
    ([86400 * 739040 + 28800, 86400 * 739040 + 30600, 86400 * 739040 + 32400].length ≤ 3 ∧
      List.Sorted (· < ·)
        [86400 * 739040 + 28800, 86400 * 739040 + 30600, 86400 * 739040 + 32400] ∧
      ∀ t ∈ [86400 * 739040 + 28800, 86400 * 739040 + 30600, 86400 * 739040 + 32400],
        86400 * 739040 < t ∧
        (dias_medico db_exemplo "123456789" "C").contains (weekday (t / 86400)) = true ∧
        ∀ c ∈ db_exemplo.consultas, c.nif = "123456789" → t ≠ 86400 * c.data + c.hora) :=
  ⟨by decide, by decide,
    claim_C3_propriedades_horarios db_exemplo "C" "123456789" (86400 * 739040) 2
      [86400 * 739040 + 28800, 86400 * 739040 + 30600, 86400 * 739040 + 32400]
      (by decide) (by decide)⟩

/-- Witness for C10 at the same concrete store. -/
theorem claim_C10_witness :
    (horarios_disponiveis_medico db_exemplo "C" "123456789" (86400 * 739040) 2
      = some [86400 * 739040 + 28800, 86400 * 739040 + 30600, 86400 * 739040 + 32400]) ∧
    ([86400 * 739040 + 28800, 86400 * 739040 + 30600, 86400 * 739040 + 32400] : List Nat).length = 3 :=
  ⟨by decide,
    claim_C10_exatamente_tres db_exemplo "C" "123456789" (86400 * 739040) 2
      [86400 * 739040 + 28800, 86400 * 739040 + 30600, 86400 * 739040 + 32400] (by decide)⟩

/-! ## Transaction-sequence claims -/

/-- C1: once validation has passed, the booking transaction performs its
checks in the order clinic, patient, doctor, weekday affiliation, doctor
conflict, patient conflict, self-treatment; the first failing check
yields its own error (404 for the clinic, 400 for the rest) with the
store unchanged, and only when every check passes is the row inserted
and a 200 echo returned. -/
theorem claim_C1_marca_sequencia (db : DB) (clinica paciente medico data hora : String) :
    (clinica_existe db clinica = false →
      marca_consulta_txn db clinica paciente medico data hora none
        = (⟨404, "Clínica não existente no sistema: " ++ clinica⟩, db))
    ∧ (clinica_existe db clinica = true →
      paciente_existe db paciente = false →
      marca_consulta_txn db clinica paciente medico data hora none
        = (⟨400, "Paciente não existente no sistema: " ++ paciente⟩, db))
    ∧ (clinica_existe db clinica = true →
      paciente_existe db paciente = true →
      medico_existe db medico = false →
      marca_consulta_txn db clinica paciente medico data hora none
        = (⟨400, "Médico não existente no sistema: " ++ medico⟩, db))
    ∧ (clinica_existe db clinica = true →
      paciente_existe db paciente = true →
      medico_existe db medico = true →
      medico_na_clinica db medico clinica (weekday ((parseDate data).getD 0)) = false →
      marca_consulta_txn db clinica paciente medico data hora none
        = (⟨400, "O médico não dá consultas na clínica no dia da semana: "
            ++ lista_dias_da_semana.getD (weekday ((parseDate data).getD 0)) ""⟩, db))
    ∧ (clinica_existe db clinica = true →
      paciente_existe db paciente = true →
      medico_existe db medico = true →
      medico_na_clinica db medico clinica (weekday ((parseDate data).getD 0)) = true →
      medico_tem_consulta db medico ((parseDate data).getD 0) ((parseTime hora).getD 0) = true →
      marca_consulta_txn db clinica paciente medico data hora none
        = (⟨400, "O médico já tem uma consulta no horário especificado: "
            ++ hora ++ " " ++ data⟩, db))
    ∧ (clinica_existe db clinica = true →
      paciente_existe db paciente = true →
      medico_existe db medico = true →
      medico_na_clinica db medico clinica (weekday ((parseDate data).getD 0)) = true →
      medico_tem_consulta db medico ((parseDate data).getD 0) ((parseTime hora).getD 0) = false →
      paciente_tem_consulta db paciente ((parseDate data).getD 0) ((parseTime hora).getD 0) = true →
      marca_consulta_txn db clinica paciente medico data hora none
        = (⟨400, "O paciente já tem uma consulta no horário especificado: "
            ++ hora ++ " " ++ data⟩, db))
    ∧ (clinica_existe db clinica = true →
      paciente_existe db paciente = true →
      medico_existe db medico = true →
      medico_na_clinica db medico clinica (weekday ((parseDate data).getD 0)) = true →
      medico_tem_consulta db medico ((parseDate data).getD 0) ((parseTime hora).getD 0) = false →
      paciente_tem_consulta db paciente ((parseDate data).getD 0) ((parseTime hora).getD 0) = false →
      paciente_nif db paciente = some medico →
      marca_consulta_txn db clinica paciente medico data hora none
        = (⟨400, "O médico não se pode consultar a si próprio."⟩, db))
    ∧ (∀ pnif : String,
      clinica_existe db clinica = true →
      paciente_existe db paciente = true →
      medico_existe db medico = true →
      medico_na_clinica db medico clinica (weekday ((parseDate data).getD 0)) = true →
      medico_tem_consulta db medico ((parseDate data).getD 0) ((parseTime hora).getD 0) = false →
      paciente_tem_consulta db paciente ((parseDate data).getD 0) ((parseTime hora).getD 0) = false →
      paciente_nif db paciente = some pnif →
      pnif ≠ medico →
      marca_consulta_txn db clinica paciente medico data hora none
        = (⟨200, "Marcou consulta: paciente: " ++ paciente ++ "; medico: " ++ medico
            ++ "; clínica: " ++ clinica ++ "; hora: " ++ hora ++ "; data: " ++ data ++ "."⟩,
           { db with consultas := db.consultas
              ++ [⟨paciente, medico, clinica, (parseDate data).getD 0, (parseTime hora).getD 0⟩] })) := by
  refine ⟨?_, ?_, ?_, ?_, ?_, ?_, ?_, ?_⟩
  · intro h1
    simp [marca_consulta_txn, marca_txn_body, run_transaction, db_call, h1]
  · intro h1 h2
    simp [marca_consulta_txn, marca_txn_body, run_transaction, db_call, h1, h2]
  · intro h1 h2 h3
    simp [marca_consulta_txn, marca_txn_body, run_transaction, db_call, h1, h2, h3]
  · intro h1 h2 h3 h4
    simp [marca_consulta_txn, marca_txn_body, run_transaction, db_call, h1, h2, h3, h4]
  · intro h1 h2 h3 h4 h5
    simp [marca_consulta_txn, marca_txn_body, run_transaction, db_call, h1, h2, h3, h4, h5]
  · intro h1 h2 h3 h4 h5 h6
    simp [marca_consulta_txn, marca_txn_body, run_transaction, db_call, h1, h2, h3, h4, h5, h6]
  · intro h1 h2 h3 h4 h5 h6 h7
    simp [marca_consulta_txn, marca_txn_body, run_transaction, db_call,
      h1, h2, h3, h4, h5, h6, h7]
  · intro pnif h1 h2 h3 h4 h5 h6 h7 h8
    simp [marca_consulta_txn, marca_txn_body, run_transaction, db_call,
      h1, h2, h3, h4, h5, h6, h7, h8]

/-- Witness for C1: the all-checks-pass booking at `db_exemplo` inserts
the row and returns the 200 echo. -/
theorem claim_C1_witness :
    (clinica_existe db_exemplo "C" = true
      ∧ paciente_existe db_exemplo "12345678901" = true
      ∧ medico_existe db_exemplo "123456789" = true
      ∧ medico_na_clinica db_exemplo "123456789" "C"
          (weekday ((parseDate "2024-06-03").getD 0)) = true
      ∧ medico_tem_consulta db_exemplo "123456789"
          ((parseDate "2024-06-03").getD 0) ((parseTime "09:00:00").getD 0) = false
      ∧ paciente_tem_consulta db_exemplo "12345678901"
          ((parseDate "2024-06-03").getD 0) ((parseTime "09:00:00").getD 0) = false
      ∧ paciente_nif db_exemplo "12345678901" = some "987654321"
      ∧ "987654321" ≠ "123456789")
    ∧ marca_consulta_txn db_exemplo "C" "12345678901" "123456789" "2024-06-03" "09:00:00" none
      = (⟨200, "Marcou consulta: paciente: " ++ "12345678901" ++ "; medico: " ++ "123456789"
          ++ "; clínica: " ++ "C" ++ "; hora: " ++ "09:00:00" ++ "; data: " ++ "2024-06-03" ++ "."⟩,
         { db_exemplo with consultas := db_exemplo.consultas
            ++ [⟨"12345678901", "123456789", "C",
                  (parseDate "2024-06-03").getD 0, (parseTime "09:00:00").getD 0⟩] }) :=
  ⟨⟨by decide, by decide, by decide, by decide, by decide, by decide, by decide, by decide⟩,
    (claim_C1_marca_sequencia db_exemplo "C" "12345678901" "123456789"
        "2024-06-03" "09:00:00").2.2.2.2.2.2.2 "987654321"
      (by decide) (by decide) (by decide) (by decide) (by decide) (by decide)
      (by decide) (by decide)⟩

/-- C7: once validation has passed, cancellation checks clinic (404),
patient (400) and doctor (400) in that order; with all three present it
deletes exactly the rows matching patient, doctor, clinic, date and
time; if no row matched it reports the "no matching appointment" 400
with the store unchanged, otherwise a 200 success. -/
theorem claim_C7_cancelamento (db : DB) (clinica paciente medico data hora : String) :
    (clinica_existe db clinica = false →
      cancela_consulta_txn db clinica paciente medico data hora none
        = (⟨404, "Clínica não existente no sistema: " ++ clinica⟩, db))
    ∧ (clinica_existe db clinica = true →
      paciente_existe db paciente = false →
      cancela_consulta_txn db clinica paciente medico data hora none
        = (⟨400, "Paciente não existente no sistema: " ++ paciente⟩, db))
    ∧ (clinica_existe db clinica = true →
      paciente_existe db paciente = true →
      medico_existe db medico = false →
      cancela_consulta_txn db clinica paciente medico data hora none
        = (⟨400, "Médico não existente no sistema: " ++ medico⟩, db))
    ∧ (clinica_existe db clinica = true →
      paciente_existe db paciente = true →
      medico_existe db medico = true →
      (cancela_consulta_txn db clinica paciente medico data hora none).2.consultas
        = db.consultas.filter (fun c => !consulta_corresponde paciente medico clinica
            ((parseDate data).getD 0) ((parseTime hora).getD 0) c))
    ∧ (clinica_existe db clinica = true →
      paciente_existe db paciente = true →
      medico_existe db medico = true →
      (∀ c ∈ db.consultas, consulta_corresponde paciente medico clinica
          ((parseDate data).getD 0) ((parseTime hora).getD 0) c = false) →
      cancela_consulta_txn db clinica paciente medico data hora none
        = (⟨400, "Não foi encontrada nenhuma consulta para os parâmetros especificados."⟩, db))
    ∧ (clinica_existe db clinica = true →
      paciente_existe db paciente = true →
      medico_existe db medico = true →
      (∃ c ∈ db.consultas, consulta_corresponde paciente medico clinica
          ((parseDate data).getD 0) ((parseTime hora).getD 0) c = true) →
      (cancela_consulta_txn db clinica paciente medico data hora none).1
        = ⟨200, "Cancelou consulta: paciente: " ++ paciente ++ "; medico: " ++ medico
            ++ "; clínica: " ++ clinica ++ "; hora: " ++ hora ++ "; data " ++ data ++ "."⟩) := by
  refine ⟨?_, ?_, ?_, ?_, ?_, ?_⟩
  · intro h1
    simp [cancela_consulta_txn, cancela_txn_body, run_transaction, db_call, h1]
  · intro h1 h2
    simp [cancela_consulta_txn, cancela_txn_body, run_transaction, db_call, h1, h2]
  · intro h1 h2 h3
    simp [cancela_consulta_txn, cancela_txn_body, run_transaction, db_call, h1, h2, h3]
  · intro h1 h2 h3
    simp only [cancela_consulta_txn, cancela_txn_body, run_transaction, db_call, h1, h2, h3,
      if_true, decide_True]
    by_cases hc : db.consultas.length
        - (db.consultas.filter (fun c => !consulta_corresponde paciente medico clinica
            ((parseDate data).getD 0) ((parseTime hora).getD 0) c)).length > 0
    · rw [if_pos hc]
    · rw [if_neg hc]
  · intro h1 h2 h3 h4
    have hfiltro : db.consultas.filter (fun c => !consulta_corresponde paciente medico clinica
        ((parseDate data).getD 0) ((parseTime hora).getD 0) c) = db.consultas := by
      apply List.filter_eq_self.mpr
      intro c hc
      simp [h4 c hc]
    simp only [cancela_consulta_txn, cancela_txn_body, run_transaction, db_call, h1, h2, h3,
      if_true, hfiltro]
    rw [if_neg (by omega)]
  · intro h1 h2 h3 h4
    have hlt : (db.consultas.filter (fun c => !consulta_corresponde paciente medico clinica
        ((parseDate data).getD 0) ((parseTime hora).getD 0) c)).length
        < db.consultas.length := by
      obtain ⟨c, hc, hcorr⟩ := h4
      apply List.length_filter_lt_length_iff_exists.mpr
      exact ⟨c, hc, by simp [hcorr]⟩
    simp only [cancela_consulta_txn, cancela_txn_body, run_transaction, db_call, h1, h2, h3,
      if_true]
    rw [if_pos (by omega)]

/-- A store with exactly the appointment the C7 witness cancels. -/
def db_exemplo2 : DB :=
  ⟨["C"], [⟨"12345678901", "987654321"⟩], ["123456789"],
    [⟨"123456789", "C", 0⟩],
    [⟨"12345678901", "123456789", "C", 739040, 32400⟩]⟩

/-- Witness for C7: the matching row exists, so cancellation responds
200; and with no matching row (`db_exemplo`, whose `consulta` table is
empty) it responds the "no matching appointment" 400 with the store
unchanged. -/
theorem claim_C7_witness :
    (clinica_existe db_exemplo2 "C" = true
      ∧ (∃ c ∈ db_exemplo2.consultas, consulta_corresponde "12345678901" "123456789" "C"
          ((parseDate "2024-06-03").getD 0) ((parseTime "09:00:00").getD 0) c = true)
      ∧ (∀ c ∈ db_exemplo.consultas, consulta_corresponde "12345678901" "123456789" "C"
          ((parseDate "2024-06-03").getD 0) ((parseTime "09:00:00").getD 0) c = false))
    ∧ (cancela_consulta_txn db_exemplo2 "C" "12345678901" "123456789" "2024-06-03" "09:00:00" none).1
      = ⟨200, "Cancelou consulta: paciente: " ++ "12345678901" ++ "; medico: " ++ "123456789"
          ++ "; clínica: " ++ "C" ++ "; hora: " ++ "09:00:00" ++ "; data " ++ "2024-06-03" ++ "."⟩
    ∧ cancela_consulta_txn db_exemplo "C" "12345678901" "123456789" "2024-06-03" "09:00:00" none
      = (⟨400, "Não foi encontrada nenhuma consulta para os parâmetros especificados."⟩, db_exemplo) :=
  ⟨⟨by decide, by decide, by decide⟩,
    (claim_C7_cancelamento db_exemplo2 "C" "12345678901" "123456789"
        "2024-06-03" "09:00:00").2.2.2.2.2 (by decide) (by decide) (by decide) (by decide),
    (claim_C7_cancelamento db_exemplo "C" "12345678901" "123456789"
        "2024-06-03" "09:00:00").2.2.2.2.1 (by decide) (by decide) (by decide) (by decide)⟩

/-- C9: if any store access inside the transactional section of booking
or cancellation raises, the `with conn.transaction()` block rolls the
work back — the resulting store is exactly the entry store — and the
`except` handler answers 500 with the exception's message. -/
theorem claim_C9_falha_transacao (db : DB) (clinica paciente medico data hora : String)
    (falha : Option (Nat × String)) (e : String) :
    (marca_txn_body db clinica paciente medico data hora falha = Except.error e →
      marca_consulta_txn db clinica paciente medico data hora falha = (⟨500, e⟩, db))
    ∧ (cancela_txn_body db clinica paciente medico data hora falha = Except.error e →
      cancela_consulta_txn db clinica paciente medico data hora falha = (⟨500, e⟩, db)) := by
  constructor
  · intro he
    simp [marca_consulta_txn, run_transaction, he]
  · intro he
    simp [cancela_consulta_txn, run_transaction, he]

/-- Witness for C9: a fault at the very first store access (message
"ligacao perdida") makes booking answer 500 with that message and leave
the store untouched. -/
theorem claim_C9_witness :
    (marca_txn_body db_exemplo "C" "12345678901" "123456789" "2024-06-03" "09:00:00"
        (some (0, "ligacao perdida")) = Except.error "ligacao perdida")
    ∧ marca_consulta_txn db_exemplo "C" "12345678901" "123456789" "2024-06-03" "09:00:00"
        (some (0, "ligacao perdida")) = (⟨500, "ligacao perdida"⟩, db_exemplo) :=
  ⟨rfl,
    (claim_C9_falha_transacao db_exemplo "C" "12345678901" "123456789" "2024-06-03" "09:00:00"
      (some (0, "ligacao perdida")) "ligacao perdida").1 rfl⟩

/-! ## Validator claims -/

/-- C8: booking and cancellation validate their raw inputs with the same
function — the two copied chains agree on every input and every clock. -/
theorem claim_C8_validadores_identicos :
    ∀ (paciente medico data hora : Option String) (now : Nat),
      valida_marca paciente medico data hora now
        = valida_cancela paciente medico data hora now :=
  fun _ _ _ _ _ => rfl

/-- C6: for well-formed input reaching the hour-window rule, validation
succeeds exactly when the time-of-day lies in [08:00:00, 13:00:00) or
[14:00:00, 19:00:00); 12:30:00 (second 45000) is inside the window and
13:15:00 (second 47700) is not, on every date. -/
theorem claim_C6_janela_horaria :
    (∀ (p m d h : String) (now dd tt : Nat),
      p.length = 11 → todosDigitos p.toList = true →
      m.length = 9 → todosDigitos m.toList = true →
      parseDate d = some dd → parseTime h = some tt →
      ¬(86400 * dd + tt < now) →
      (valida_marca (some p) (some m) (some d) (some h) now = none ↔ janela tt = true))
    ∧ parseTime "12:30:00" = some 45000 ∧ janela 45000 = true
    ∧ parseTime "13:15:00" = some 47700 ∧ janela 47700 = false := by
  refine ⟨?_, by decide, by decide, by decide, by decide⟩
  intro p m d h now dd tt hp1 hp2 hm1 hm2 hd ht hpast
  have hp2d : todosDigitos p.data = true := hp2
  have hm2d : todosDigitos m.data = true := hm2
  have hpne : p ≠ "" := by
    intro he
    rw [he] at hp1
    simp at hp1
  have hmne : m ≠ "" := by
    intro he
    rw [he] at hm1
    simp at hm1
  have hdne : d ≠ "" := by
    intro he
    rw [he] at hd
    simp [show parseDate "" = none from rfl] at hd
  have hhne : h ≠ "" := by
    intro he
    rw [he] at ht
    simp [show parseTime "" = none from rfl] at ht
  cases hj : janela tt with
  | false =>
    simp [valida_marca, campo_vazio, verificar_formato_data, hp1, hp2d, hm1, hm2d,
      hpne, hmne, hdne, hhne, hd, ht, hpast, hj]
  | true =>
    simp [valida_marca, campo_vazio, verificar_formato_data, hp1, hp2d, hm1, hm2d,
      hpne, hmne, hdne, hhne, hd, ht, hpast, hj]

/-- Witness for C6: a fully well-formed booking request at 12:30:00 on a
future date validates successfully. -/
theorem claim_C6_witness :
    (("12345678901" : String).length = 11 ∧ todosDigitos ("12345678901" : String).toList = true
      ∧ ("123456789" : String).length = 9 ∧ todosDigitos ("123456789" : String).toList = true
      ∧ parseDate "2030-01-01" = some (toordinal 2030 1 1)
      ∧ parseTime "12:30:00" = some 45000
      ∧ ¬(86400 * toordinal 2030 1 1 + 45000 < 0))
    ∧ valida_marca (some "12345678901") (some "123456789") (some "2030-01-01")
        (some "12:30:00") 0 = none :=
  ⟨⟨by decide, by decide, by decide, by decide, by decide, by decide, by decide⟩,
    (claim_C6_janela_horaria.1 "12345678901" "123456789" "2030-01-01" "12:30:00" 0
        (toordinal 2030 1 1) 45000 (by decide) (by decide) (by decide) (by decide)
        (by decide) (by decide) (by decide)).mpr (by decide)⟩

/-! ## Validation rules (the six rules of the spec, in evaluation order) -/

/-- Rule 1: patient id present, exactly 11 decimal digits. -/
def regra_paciente (paciente : Option String) : Prop :=
  campo_vazio paciente = false ∧ (paciente.getD "").length = 11
    ∧ todosDigitos (paciente.getD "").toList = true

/-- Rule 2: doctor id present, exactly 9 decimal digits. -/
def regra_medico (medico : Option String) : Prop :=
  campo_vazio medico = false ∧ (medico.getD "").length = 9
    ∧ todosDigitos (medico.getD "").toList = true

/-- Rule 3: date present and parseable as YYYY-MM-DD. -/
def regra_data (data : Option String) : Prop :=
  campo_vazio data = false ∧ verificar_formato_data (data.getD "") "%Y-%m-%d" = true

/-- Rule 4: time present and parseable as HH:MM:SS. -/
def regra_hora (hora : Option String) : Prop :=
  campo_vazio hora = false ∧ verificar_formato_data (hora.getD "") "%H:%M:%S" = true

/-- Rule 5: the combined instant is not strictly before `now` (which is
already wall clock + 1h). -/
def regra_futuro (data hora : Option String) (now : Nat) : Prop :=
  ¬(86400 * ((parseDate (data.getD "")).getD 0) + (parseTime (hora.getD "")).getD 0 < now)

/-- Rule 6: the time-of-day lies inside the operating windows. -/
def regra_janela (hora : Option String) : Prop :=
  janela ((parseTime (hora.getD "")).getD 0) = true

/-- The patient format test of app.py:226 fails exactly when rule 1's
length/digit part fails. -/
lemma cond_paciente_iff (paciente : Option String) :
    ((((paciente.getD "").length != 11) || !todosDigitos (paciente.getD "").toList) = false)
      ↔ ((paciente.getD "").length = 11 ∧ todosDigitos (paciente.getD "").toList = true) := by
  simp

/-- The doctor format test of app.py:230, likewise. -/
lemma cond_medico_iff (medico : Option String) :
    ((((medico.getD "").length != 9) || !todosDigitos (medico.getD "").toList) = false)
      ↔ ((medico.getD "").length = 9 ∧ todosDigitos (medico.getD "").toList = true) := by
  simp

/-! Single-outcome evaluations of the validation chain, one per branch. -/

lemma vm_msg1 {paciente medico data hora : Option String} {now : Nat}
    (h1 : campo_vazio paciente = true) :
    valida_marca paciente medico data hora now
      = some "O campo paciente precisa de estar preenchido." := by
  rw [valida_marca, if_pos h1]

lemma vm_msg2 {paciente medico data hora : Option String} {now : Nat}
    (h1 : campo_vazio paciente = false)
    (h2 : (((paciente.getD "").length != 11) || !todosDigitos (paciente.getD "").toList) = true) :
    valida_marca paciente medico data hora now
      = some "Formato inválido para o campo paciente." := by
  rw [valida_marca, if_neg (by rw [h1]; simp), if_pos h2]

lemma vm_msg3 {paciente medico data hora : Option String} {now : Nat}
    (h1 : campo_vazio paciente = false)
    (h2 : (((paciente.getD "").length != 11) || !todosDigitos (paciente.getD "").toList) = false)
    (h3 : campo_vazio medico = true) :
    valida_marca paciente medico data hora now
      = some "O campo medico precisa de estar preenchido." := by
  rw [valida_marca, if_neg (by rw [h1]; simp), if_neg (by rw [h2]; simp), if_pos h3]

lemma vm_msg4 {paciente medico data hora : Option String} {now : Nat}
    (h1 : campo_vazio paciente = false)
    (h2 : (((paciente.getD "").length != 11) || !todosDigitos (paciente.getD "").toList) = false)
    (h3 : campo_vazio medico = false)
    (h4 : (((medico.getD "").length != 9) || !todosDigitos (medico.getD "").toList) = true) :
    valida_marca paciente medico data hora now
      = some "Formato inválido para o campo medico." := by
  rw [valida_marca, if_neg (by rw [h1]; simp), if_neg (by rw [h2]; simp),
    if_neg (by rw [h3]; simp), if_pos h4]

lemma vm_msg5 {paciente medico data hora : Option String} {now : Nat}
    (h1 : campo_vazio paciente = false)
    (h2 : (((paciente.getD "").length != 11) || !todosDigitos (paciente.getD "").toList) = false)
    (h3 : campo_vazio medico = false)
    (h4 : (((medico.getD "").length != 9) || !todosDigitos (medico.getD "").toList) = false)
    (h5 : campo_vazio data = true) :
    valida_marca paciente medico data hora now
      = some "O campo data precisa de estar preenchido." := by
  rw [valida_marca, if_neg (by rw [h1]; simp), if_neg (by rw [h2]; simp),
    if_neg (by rw [h3]; simp), if_neg (by rw [h4]; simp), if_pos h5]

lemma vm_msg6 {paciente medico data hora : Option String} {now : Nat}
    (h1 : campo_vazio paciente = false)
    (h2 : (((paciente.getD "").length != 11) || !todosDigitos (paciente.getD "").toList) = false)
    (h3 : campo_vazio medico = false)
    (h4 : (((medico.getD "").length != 9) || !todosDigitos (medico.getD "").toList) = false)
    (h5 : campo_vazio data = false)
    (h6 : verificar_formato_data (data.getD "") "%Y-%m-%d" = false) :
    valida_marca paciente medico data hora now
      = some "Formato inválido para o campo data. Formato esperado: YYYY-MM-DD" := by
  rw [valida_marca, if_neg (by rw [h1]; simp), if_neg (by rw [h2]; simp),
    if_neg (by rw [h3]; simp), if_neg (by rw [h4]; simp), if_neg (by rw [h5]; simp),
    if_pos (by rw [h6]; simp)]

lemma vm_msg7 {paciente medico data hora : Option String} {now : Nat}
    (h1 : campo_vazio paciente = false)
    (h2 : (((paciente.getD "").length != 11) || !todosDigitos (paciente.getD "").toList) = false)
    (h3 : campo_vazio medico = false)
    (h4 : (((medico.getD "").length != 9) || !todosDigitos (medico.getD "").toList) = false)
    (h5 : campo_vazio data = false)
    (h6 : verificar_formato_data (data.getD "") "%Y-%m-%d" = true)
    (h7 : campo_vazio hora = true) :
    valida_marca paciente medico data hora now
      = some "O campo hora precisa de estar preenchido." := by
  rw [valida_marca, if_neg (by rw [h1]; simp), if_neg (by rw [h2]; simp),
    if_neg (by rw [h3]; simp), if_neg (by rw [h4]; simp), if_neg (by rw [h5]; simp),
    if_neg (by rw [h6]; simp), if_pos h7]

lemma vm_msg8 {paciente medico data hora : Option String} {now : Nat}
    (h1 : campo_vazio paciente = false)
    (h2 : (((paciente.getD "").length != 11) || !todosDigitos (paciente.getD "").toList) = false)
    (h3 : campo_vazio medico = false)
    (h4 : (((medico.getD "").length != 9) || !todosDigitos (medico.getD "").toList) = false)
    (h5 : campo_vazio data = false)
    (h6 : verificar_formato_data (data.getD "") "%Y-%m-%d" = true)
    (h7 : campo_vazio hora = false)
    (h8 : verificar_formato_data (hora.getD "") "%H:%M:%S" = false) :
    valida_marca paciente medico data hora now
      = some "Formato inválido para o campo hora. Formato esperado: HH:MM:SS" := by
  rw [valida_marca, if_neg (by rw [h1]; simp), if_neg (by rw [h2]; simp),
    if_neg (by rw [h3]; simp), if_neg (by rw [h4]; simp), if_neg (by rw [h5]; simp),
    if_neg (by rw [h6]; simp), if_neg (by rw [h7]; simp), if_pos (by rw [h8]; simp)]

lemma vm_msg9 {paciente medico data hora : Option String} {now : Nat}
    (h1 : campo_vazio paciente = false)
    (h2 : (((paciente.getD "").length != 11) || !todosDigitos (paciente.getD "").toList) = false)
    (h3 : campo_vazio medico = false)
    (h4 : (((medico.getD "").length != 9) || !todosDigitos (medico.getD "").toList) = false)
    (h5 : campo_vazio data = false)
    (h6 : verificar_formato_data (data.getD "") "%Y-%m-%d" = true)
    (h7 : campo_vazio hora = false)
    (h8 : verificar_formato_data (hora.getD "") "%H:%M:%S" = true)
    (h9 : 86400 * ((parseDate (data.getD "")).getD 0) + (parseTime (hora.getD "")).getD 0 < now) :
    valida_marca paciente medico data hora now
      = some ("O horário inserido não pode ser no passado: "
          ++ hora.getD "" ++ " " ++ data.getD "") := by
  rw [valida_marca, if_neg (by rw [h1]; simp), if_neg (by rw [h2]; simp),
    if_neg (by rw [h3]; simp), if_neg (by rw [h4]; simp), if_neg (by rw [h5]; simp),
    if_neg (by rw [h6]; simp), if_neg (by rw [h7]; simp), if_neg (by rw [h8]; simp),
    if_pos h9]

lemma vm_msg10 {paciente medico data hora : Option String} {now : Nat}
    (h1 : campo_vazio paciente = false)
    (h2 : (((paciente.getD "").length != 11) || !todosDigitos (paciente.getD "").toList) = false)
    (h3 : campo_vazio medico = false)
    (h4 : (((medico.getD "").length != 9) || !todosDigitos (medico.getD "").toList) = false)
    (h5 : campo_vazio data = false)
    (h6 : verificar_formato_data (data.getD "") "%Y-%m-%d" = true)
    (h7 : campo_vazio hora = false)
    (h8 : verificar_formato_data (hora.getD "") "%H:%M:%S" = true)
    (h9 : ¬(86400 * ((parseDate (data.getD "")).getD 0) + (parseTime (hora.getD "")).getD 0 < now))
    (h10 : janela ((parseTime (hora.getD "")).getD 0) = false) :
    valida_marca paciente medico data hora now
      = some "O horário inserido deve estar no horário 8-13h e 14-19h." := by
  rw [valida_marca, if_neg (by rw [h1]; simp), if_neg (by rw [h2]; simp),
    if_neg (by rw [h3]; simp), if_neg (by rw [h4]; simp), if_neg (by rw [h5]; simp),
    if_neg (by rw [h6]; simp), if_neg (by rw [h7]; simp), if_neg (by rw [h8]; simp),
    if_neg h9, if_pos (by rw [h10]; simp)]

lemma vm_none {paciente medico data hora : Option String} {now : Nat}
    (h1 : campo_vazio paciente = false)
    (h2 : (((paciente.getD "").length != 11) || !todosDigitos (paciente.getD "").toList) = false)
    (h3 : campo_vazio medico = false)
    (h4 : (((medico.getD "").length != 9) || !todosDigitos (medico.getD "").toList) = false)
    (h5 : campo_vazio data = false)
    (h6 : verificar_formato_data (data.getD "") "%Y-%m-%d" = true)
    (h7 : campo_vazio hora = false)
    (h8 : verificar_formato_data (hora.getD "") "%H:%M:%S" = true)
    (h9 : ¬(86400 * ((parseDate (data.getD "")).getD 0) + (parseTime (hora.getD "")).getD 0 < now))
    (h10 : janela ((parseTime (hora.getD "")).getD 0) = true) :
    valida_marca paciente medico data hora now = none := by
  rw [valida_marca, if_neg (by rw [h1]; simp), if_neg (by rw [h2]; simp),
    if_neg (by rw [h3]; simp), if_neg (by rw [h4]; simp), if_neg (by rw [h5]; simp),
    if_neg (by rw [h6]; simp), if_neg (by rw [h7]; simp), if_neg (by rw [h8]; simp),
    if_neg h9, if_neg (by rw [h10]; simp)]

/-- C4: the validator evaluates its six rules in the fixed order patient
format, doctor format, date format, time format, not-in-past, hour
window; validation succeeds exactly when all six hold, and for every
input the first failing rule determines the single error returned (each
rule owning its error messages).  In particular the 11-digit id
"12345678901" satisfies rule 1, "1234567890" is rejected with the
patient-format error whatever the other fields contain, and "25:00:00"
is rejected at the time-format rule. -/
theorem claim_C4_validador_ordem :
    ∀ (paciente medico data hora : Option String) (now : Nat),
      (valida_marca paciente medico data hora now = none ↔
        (regra_paciente paciente ∧ regra_medico medico ∧ regra_data data ∧ regra_hora hora
          ∧ regra_futuro data hora now ∧ regra_janela hora))
      ∧ (¬regra_paciente paciente →
          (valida_marca paciente medico data hora now
              = some "O campo paciente precisa de estar preenchido."
            ∨ valida_marca paciente medico data hora now
              = some "Formato inválido para o campo paciente."))
      ∧ (regra_paciente paciente → ¬regra_medico medico →
          (valida_marca paciente medico data hora now
              = some "O campo medico precisa de estar preenchido."
            ∨ valida_marca paciente medico data hora now
              = some "Formato inválido para o campo medico."))
      ∧ (regra_paciente paciente → regra_medico medico → ¬regra_data data →
          (valida_marca paciente medico data hora now
              = some "O campo data precisa de estar preenchido."
            ∨ valida_marca paciente medico data hora now
              = some "Formato inválido para o campo data. Formato esperado: YYYY-MM-DD"))
      ∧ (regra_paciente paciente → regra_medico medico → regra_data data → ¬regra_hora hora →
          (valida_marca paciente medico data hora now
              = some "O campo hora precisa de estar preenchido."
            ∨ valida_marca paciente medico data hora now
              = some "Formato inválido para o campo hora. Formato esperado: HH:MM:SS"))
      ∧ (regra_paciente paciente → regra_medico medico → regra_data data → regra_hora hora →
          ¬regra_futuro data hora now →
          valida_marca paciente medico data hora now
            = some ("O horário inserido não pode ser no passado: "
                ++ hora.getD "" ++ " " ++ data.getD ""))
      ∧ (regra_paciente paciente → regra_medico medico → regra_data data → regra_hora hora →
          regra_futuro data hora now → ¬regra_janela hora →
          valida_marca paciente medico data hora now
            = some "O horário inserido deve estar no horário 8-13h e 14-19h.")
      ∧ (valida_marca (some "1234567890") medico data hora now
          = some "Formato inválido para o campo paciente.")
      ∧ regra_paciente (some "12345678901")
      ∧ (valida_marca (some "12345678901") (some "123456789") (some "2030-01-01")
          (some "25:00:00") now
          = some "Formato inválido para o campo hora. Formato esperado: HH:MM:SS") := by
  intro paciente medico data hora now
  refine ⟨?_, ?_, ?_, ?_, ?_, ?_, ?_, ?_, ?_, ?_⟩
  · -- the success characterisation
    by_cases h1 : campo_vazio paciente = true
    · constructor
      · intro hn
        exact Option.noConfusion ((vm_msg1 h1).symm.trans hn)
      · rintro ⟨⟨hx, -, -⟩, -⟩
        rw [h1] at hx
        exact Bool.noConfusion hx
    · rw [Bool.not_eq_true] at h1
      by_cases h2 : (((paciente.getD "").length != 11)
          || !todosDigitos (paciente.getD "").toList) = true
      · constructor
        · intro hn
          exact Option.noConfusion ((vm_msg2 h1 h2).symm.trans hn)
        · rintro ⟨⟨-, hl, hdg⟩, -⟩
          have hc := (cond_paciente_iff paciente).mpr ⟨hl, hdg⟩
          rw [h2] at hc
          exact Bool.noConfusion hc
      · rw [Bool.not_eq_true] at h2
        by_cases h3 : campo_vazio medico = true
        · constructor
          · intro hn
            exact Option.noConfusion ((vm_msg3 h1 h2 h3).symm.trans hn)
          · rintro ⟨-, ⟨hx, -, -⟩, -⟩
            rw [h3] at hx
            exact Bool.noConfusion hx
        · rw [Bool.not_eq_true] at h3
          by_cases h4 : (((medico.getD "").length != 9)
              || !todosDigitos (medico.getD "").toList) = true
          · constructor
            · intro hn
              exact Option.noConfusion ((vm_msg4 h1 h2 h3 h4).symm.trans hn)
            · rintro ⟨-, ⟨-, hl, hdg⟩, -⟩
              have hc := (cond_medico_iff medico).mpr ⟨hl, hdg⟩
              rw [h4] at hc
              exact Bool.noConfusion hc
          · rw [Bool.not_eq_true] at h4
            by_cases h5 : campo_vazio data = true
            · constructor
              · intro hn
                exact Option.noConfusion ((vm_msg5 h1 h2 h3 h4 h5).symm.trans hn)
              · rintro ⟨-, -, ⟨hx, -⟩, -⟩
                rw [h5] at hx
                exact Bool.noConfusion hx
            · rw [Bool.not_eq_true] at h5
              by_cases h6 : verificar_formato_data (data.getD "") "%Y-%m-%d" = true
              · by_cases h7 : campo_vazio hora = true
                · constructor
                  · intro hn
                    exact Option.noConfusion ((vm_msg7 h1 h2 h3 h4 h5 h6 h7).symm.trans hn)
                  · rintro ⟨-, -, -, ⟨hx, -⟩, -⟩
                    rw [h7] at hx
                    exact Bool.noConfusion hx
                · rw [Bool.not_eq_true] at h7
                  by_cases h8 : verificar_formato_data (hora.getD "") "%H:%M:%S" = true
                  · by_cases h9 : 86400 * ((parseDate (data.getD "")).getD 0)
                        + (parseTime (hora.getD "")).getD 0 < now
                    · constructor
                      · intro hn
                        exact Option.noConfusion
                          ((vm_msg9 h1 h2 h3 h4 h5 h6 h7 h8 h9).symm.trans hn)
                      · rintro ⟨-, -, -, -, hf, -⟩
                        exact absurd h9 hf
                    · by_cases h10 : janela ((parseTime (hora.getD "")).getD 0) = true
                      · constructor
                        · intro _
                          obtain ⟨hpl, hpd⟩ := (cond_paciente_iff paciente).mp h2
                          obtain ⟨hml, hmd⟩ := (cond_medico_iff medico).mp h4
                          exact ⟨⟨h1, hpl, hpd⟩, ⟨h3, hml, hmd⟩, ⟨h5, h6⟩, ⟨h7, h8⟩, h9, h10⟩
                        · intro _
                          exact vm_none h1 h2 h3 h4 h5 h6 h7 h8 h9 h10
                      · rw [Bool.not_eq_true] at h10
                        constructor
                        · intro hn
                          exact Option.noConfusion
                            ((vm_msg10 h1 h2 h3 h4 h5 h6 h7 h8 h9 h10).symm.trans hn)
                        · rintro ⟨-, -, -, -, -, hj⟩
                          have hj2 : janela ((parseTime (hora.getD "")).getD 0) = true := hj
                          rw [h10] at hj2
                          exact Bool.noConfusion hj2
                  · rw [Bool.not_eq_true] at h8
                    constructor
                    · intro hn
                      exact Option.noConfusion ((vm_msg8 h1 h2 h3 h4 h5 h6 h7 h8).symm.trans hn)
                    · rintro ⟨-, -, -, ⟨-, hx⟩, -⟩
                      rw [h8] at hx
                      exact Bool.noConfusion hx
              · rw [Bool.not_eq_true] at h6
                constructor
                · intro hn
                  exact Option.noConfusion ((vm_msg6 h1 h2 h3 h4 h5 h6).symm.trans hn)
                · rintro ⟨-, -, ⟨-, hx⟩, -⟩
                  rw [h6] at hx
                  exact Bool.noConfusion hx
  · -- rule 1 fails: a patient error is reported
    intro hr
    by_cases h1 : campo_vazio paciente = true
    · exact Or.inl (vm_msg1 h1)
    · rw [Bool.not_eq_true] at h1
      cases h2 : ((paciente.getD "").length != 11) || !todosDigitos (paciente.getD "").toList with
      | true => exact Or.inr (vm_msg2 h1 h2)
      | false =>
        obtain ⟨hl, hdg⟩ := (cond_paciente_iff paciente).mp h2
        exact absurd ⟨h1, hl, hdg⟩ hr
  · -- rule 2 fails first: a doctor error is reported
    intro hrp hrm
    obtain ⟨h1, hpl, hpd⟩ := hrp
    have h2 := (cond_paciente_iff paciente).mpr ⟨hpl, hpd⟩
    by_cases h3 : campo_vazio medico = true
    · exact Or.inl (vm_msg3 h1 h2 h3)
    · rw [Bool.not_eq_true] at h3
      cases h4 : ((medico.getD "").length != 9) || !todosDigitos (medico.getD "").toList with
      | true => exact Or.inr (vm_msg4 h1 h2 h3 h4)
      | false =>
        obtain ⟨hl, hdg⟩ := (cond_medico_iff medico).mp h4
        exact absurd ⟨h3, hl, hdg⟩ hrm
  · -- rule 3 fails first: a date error is reported
    intro hrp hrm hrd
    obtain ⟨h1, hpl, hpd⟩ := hrp
    have h2 := (cond_paciente_iff paciente).mpr ⟨hpl, hpd⟩
    obtain ⟨h3, hml, hmd⟩ := hrm
    have h4 := (cond_medico_iff medico).mpr ⟨hml, hmd⟩
    by_cases h5 : campo_vazio data = true
    · exact Or.inl (vm_msg5 h1 h2 h3 h4 h5)
    · rw [Bool.not_eq_true] at h5
      cases h6 : verificar_formato_data (data.getD "") "%Y-%m-%d" with
      | false => exact Or.inr (vm_msg6 h1 h2 h3 h4 h5 h6)
      | true => exact absurd ⟨h5, h6⟩ hrd
  · -- rule 4 fails first: a time error is reported
    intro hrp hrm hrd hrh
    obtain ⟨h1, hpl, hpd⟩ := hrp
    have h2 := (cond_paciente_iff paciente).mpr ⟨hpl, hpd⟩
    obtain ⟨h3, hml, hmd⟩ := hrm
    have h4 := (cond_medico_iff medico).mpr ⟨hml, hmd⟩
    obtain ⟨h5, h6⟩ := hrd
    by_cases h7 : campo_vazio hora = true
    · exact Or.inl (vm_msg7 h1 h2 h3 h4 h5 h6 h7)
    · rw [Bool.not_eq_true] at h7
      cases h8 : verificar_formato_data (hora.getD "") "%H:%M:%S" with
      | false => exact Or.inr (vm_msg8 h1 h2 h3 h4 h5 h6 h7 h8)
      | true => exact absurd ⟨h7, h8⟩ hrh
  · -- rule 5 fails first: the not-in-past error
    intro hrp hrm hrd hrh hrf
    obtain ⟨h1, hpl, hpd⟩ := hrp
    have h2 := (cond_paciente_iff paciente).mpr ⟨hpl, hpd⟩
    obtain ⟨h3, hml, hmd⟩ := hrm
    have h4 := (cond_medico_iff medico).mpr ⟨hml, hmd⟩
    obtain ⟨h5, h6⟩ := hrd
    obtain ⟨h7, h8⟩ := hrh
    have h9 : 86400 * ((parseDate (data.getD "")).getD 0)
        + (parseTime (hora.getD "")).getD 0 < now := not_not.mp hrf
    exact vm_msg9 h1 h2 h3 h4 h5 h6 h7 h8 h9
  · -- rule 6 fails first: the hour-window error
    intro hrp hrm hrd hrh hrf hrj
    obtain ⟨h1, hpl, hpd⟩ := hrp
    have h2 := (cond_paciente_iff paciente).mpr ⟨hpl, hpd⟩
    obtain ⟨h3, hml, hmd⟩ := hrm
    have h4 := (cond_medico_iff medico).mpr ⟨hml, hmd⟩
    obtain ⟨h5, h6⟩ := hrd
    obtain ⟨h7, h8⟩ := hrh
    cases h10 : janela ((parseTime (hora.getD "")).getD 0) with
    | false => exact vm_msg10 h1 h2 h3 h4 h5 h6 h7 h8 hrf h10
    | true => exact absurd h10 hrj
  · exact vm_msg2 (by decide) (by decide)
  · unfold regra_paciente
    decide
  · exact vm_msg8 (by decide) (by decide) (by decide) (by decide) (by decide) (by decide)
      (by decide) (by decide)

/-- Witness for C4: the 10-digit id fails rule 1, so the validator
reports a patient error whatever the other fields hold. -/
theorem claim_C4_witness :
    ¬regra_paciente (some "1234567890") ∧
    (valida_marca (some "1234567890") none none none 0
        = some "O campo paciente precisa de estar preenchido."
      ∨ valida_marca (some "1234567890") none none none 0
        = some "Formato inválido para o campo paciente.") :=
  ⟨by unfold regra_paciente; decide,
    (claim_C4_validador_ordem (some "1234567890") none none none 0).2.1
      (by unfold regra_paciente; decide)⟩
